import Mathlib

/-!
Verification of the Team Roster Manager core (models.py, forms.py, app.py).

The persistent store (three SQLite tables managed through SQLAlchemy) is
embedded as lists of records; each Flask route that the specification treats
as a core operation is embedded as a pure function on the store.  Fallible
routes return the post-operation store together with an `Except` result: the
source wraps mutations in a session whose rollback restores the store, so an
error outcome carries the unchanged store.
-/

namespace Roster

/-- Error taxonomy of the specification.  In the source these surface as a
404 response (`NotFound`), an uncaught IntegrityError from the UNIQUE
constraint (`ConstraintViolation`), a caught-and-flashed ValueError/KeyError
or a failed form validation (`InvalidInput`), and a caught-and-flashed
StaleDataError from the version_id_col mapper (`ConcurrencyConflict`). -/
inductive Err where
  | NotFound
  | ConstraintViolation
  | InvalidInput
  | ConcurrencyConflict
  deriving DecidableEq, Repr

/-- Row of table team (models.py): integer primary key, unique name. -/
structure Team where
  TeamID : Int
  TeamName : String
  deriving DecidableEq, Repr

/-- Row of table position (models.py): integer primary key, name. -/
structure Position where
  PositionID : Int
  PositionName : String
  deriving DecidableEq, Repr

/-- Row of table player (models.py).  TeamID and PositionID are nullable
foreign-key columns; Version is the optimistic-concurrency counter declared
with default 0 and registered as the mapper version_id_col, so every ORM
UPDATE is issued as
UPDATE player SET ... , Version = :new WHERE PlayerID = :id AND Version = :old.
Age is an Integer column, Height a Float column (embedded as Rat). -/
structure Player where
  PlayerID : Int
  Name : String
  Age : Int
  Height : Rat
  TeamID : Option Int
  PositionID : Option Int
  Version : Nat
  deriving DecidableEq, Repr

/-- The persisted table set. -/
structure Store where
  teams : List Team
  positions : List Position
  players : List Player
  deriving DecidableEq, Repr

/-- Primary keys of all Team rows. -/
def teamIds (st : Store) : List Int := st.teams.map Team.TeamID

/-- Primary keys of all Position rows. -/
def posIds (st : Store) : List Int := st.positions.map Position.PositionID

/-- Value of a decimal digit character. -/
def digitVal (c : Char) : Nat := c.toNat - 48

/-- Natural number denoted by a list of decimal digits, most significant
first (empty list denotes 0). -/
def natOfDigits (l : List Char) : Nat :=
  l.foldl (fun a c => 10 * a + digitVal c) 0

/-- Surrounding-whitespace removal, as Python numeric conversion applies
before parsing. -/
def pyTrim (l : List Char) : List Char :=
  ((l.dropWhile Char.isWhitespace).reverse.dropWhile Char.isWhitespace).reverse

/-- Models Python int(s) as applied to HTML form strings in app.py:
surrounding whitespace is ignored, then an optional sign followed by one or
more decimal digits; any other string raises ValueError, embedded as none.
(Numeric bases and underscores accepted by Python are not exercised by the
routes and are not modelled.) -/
def pyInt (s : String) : Option Int :=
  match pyTrim s.toList with
  | [] => none
  | c :: cs =>
    if c = '-' then
      if cs ≠ [] ∧ cs.all Char.isDigit then some (-(natOfDigits cs : Int)) else none
    else if c = '+' then
      if cs ≠ [] ∧ cs.all Char.isDigit then some ((natOfDigits cs : Int)) else none
    else
      if (c :: cs).all Char.isDigit then some ((natOfDigits (c :: cs) : Int)) else none

/-- Fields of a character list split at every dot, used to parse decimal
float literals. -/
def splitOnDot : List Char → List (List Char)
  | [] => [[]]
  | c :: cs =>
    match splitOnDot cs with
    | [] => [[]]
    | h :: t => if c = '.' then [] :: h :: t else (c :: h) :: t

/-- Models Python float(s) on decimal literals: surrounding whitespace,
optional sign, digits with an optional fractional part; at least one digit
must be present.  Any other string raises ValueError, embedded as none.
(Exponent and inf/nan forms are not exercised by the routes and are not
modelled; Float is embedded as Rat.) -/
def pyFloat (s : String) : Option Rat :=
  let t := pyTrim s.toList
  let sgn : Rat := if t.head? = some '-' then -1 else 1
  let body := if t.head? = some '-' ∨ t.head? = some '+' then t.tail else t
  match splitOnDot body with
  | [ip] =>
    if ip ≠ [] ∧ ip.all Char.isDigit then
      some (sgn * (natOfDigits ip : Rat))
    else none
  | [ip, fp] =>
    if (ip ≠ [] ∨ fp ≠ []) ∧ ip.all Char.isDigit ∧ fp.all Char.isDigit then
      some (sgn * ((natOfDigits ip : Rat) +
        (natOfDigits fp : Rat) / ((10 : Rat) ^ fp.length)))
    else none
  | _ => none

/-- Fresh autoincrement primary key for a SQLite integer primary key column:
one more than the largest key in use. -/
def nextId (used : List Int) : Int := used.foldl max 0 + 1

/-- add_team (app.py 83-91): a validated TeamForm inserts a Team row.  The
UNIQUE constraint on TeamName (models.py 24) makes the commit of a duplicate
name fail with IntegrityError and nothing is persisted; this constraint check
is embedded as the guard. -/
def add_team (st : Store) (name : String) : Store × Except Err Team :=
  if st.teams.any (fun t => t.TeamName == name) then
    (st, .error .ConstraintViolation)
  else
    let t : Team := ⟨nextId (teamIds st), name⟩
    ({ st with teams := st.teams ++ [t] }, .ok t)

/-- add_player (app.py 61-78): PlayerForm (forms.py) restricts the team and
position SelectFields to choices drawn from the current Team and Position
tables, so validate_on_submit succeeds only when the submitted ids are among
the existing ones; the guard embeds that choice validation.  The inserted row
takes the declared Version default 0. -/
def add_player (st : Store) (name : String) (age : Int) (height : Rat)
    (teamId posId : Int) : Store × Except Err Player :=
  if st.teams.any (fun t => t.TeamID == teamId) &&
     st.positions.any (fun q => q.PositionID == posId) then
    let p : Player :=
      ⟨nextId (st.players.map Player.PlayerID), name, age, height,
        some teamId, some posId, 0⟩
    ({ st with players := st.players ++ [p] }, .ok p)
  else
    (st, .error .InvalidInput)

/-- delete_team (app.py 120-127): two raw DELETE statements, first
DELETE FROM player WHERE TeamID = :team_id, then
DELETE FROM team WHERE TeamID = :team_id, committed together.  A NULL TeamID
never equals :team_id in SQL, matching the Option comparison here.  No error
path: deleting an id that matches no row affects zero rows. -/
def delete_team (st : Store) (tid : Int) : Store :=
  { st with
    players := st.players.filter (fun p => !(p.TeamID == some tid)),
    teams := st.teams.filter (fun t => !(t.TeamID == tid)) }

/-- The POST body of the edit_player form: request.form is a string map and
each field may be absent (request.form' s bracket access raises KeyError). -/
structure EditForm where
  name : Option String
  age : Option String
  height : Option String
  team : Option String
  position : Option String
  deriving DecidableEq, Repr

/-- edit_player POST (app.py 132-152).  The route loads the row by id
(get_or_404), assigns Name, int(age), float(height), int(team),
int(position) in order and commits; any exception rolls the session back and
leaves the store unchanged.  A KeyError (missing field) or ValueError (failed
parse) therefore yields InvalidInput with the original store.  The commit
itself is the mapper's conditional update
UPDATE player SET ... WHERE PlayerID = :id AND Version = :expected, which
raises StaleDataError (ConcurrencyConflict) when the expected version —
the version the session observed at load time, passed here explicitly as in
the specification's updatePlayer contract — no longer matches the stored
one.  No check relates the supplied team/position ids to existing Team or
Position rows (SQLite does not enforce the declared foreign keys). -/
def edit_player (st : Store) (pid : Int) (expected : Nat) (form : EditForm) :
    Store × Except Err Player :=
  match st.players.find? (fun q => q.PlayerID == pid) with
  | none => (st, .error .NotFound)
  | some p =>
    match form.name, form.age, form.height, form.team, form.position with
    | some nm, some ageS, some hS, some tS, some qS =>
      match pyInt ageS, pyFloat hS, pyInt tS, pyInt qS with
      | some a, some h, some t, some q =>
        if p.Version = expected then
          let p2 : Player :=
            { p with Name := nm, Age := a, Height := h,
                     TeamID := some t, PositionID := some q,
                     Version := p.Version + 1 }
          ({ st with players :=
              st.players.map (fun r => if r.PlayerID == pid then p2 else r) },
           .ok p2)
        else (st, .error .ConcurrencyConflict)
      | _, _, _, _ => (st, .error .InvalidInput)
    | _, _, _, _, _ => (st, .error .InvalidInput)

/-- Two-decimal rounding, round(x, 2) in the report route.  The source
leaves tie behaviour at the third decimal unspecified (binary floats rarely
hit exact ties); rounding half up is fixed here. -/
def round2 (x : Rat) : Rat := ((x * 100 + 1 / 2).floor : Rat) / 100

/-- Result rendered by the report route: the fetched player rows and the
stats dictionary with keys total, avg_age, avg_height. -/
structure ReportResult where
  players : List Player
  total : Nat
  avg_age : Rat
  avg_height : Rat
  deriving DecidableEq, Repr

/-- Filter-token handling of the report route (app.py 174-180): a falsy
token (absent key or empty string) or the literal all adds no WHERE clause;
otherwise int(token) becomes the bound parameter, and a failed parse raises
ValueError (InvalidInput). -/
def parseFilterToken (tok : Option String) : Except Err (Option Int) :=
  match tok with
  | none => .ok none
  | some s =>
    if s = "" ∨ s = "all" then .ok none
    else
      match pyInt s with
      | some n => .ok (some n)
      | none => .error .InvalidInput

/-- The WHERE clause TeamID = :team_id, absent when no team filter is set. -/
def matchesTeam (tf : Option Int) (p : Player) : Bool :=
  match tf with
  | none => true
  | some n => p.TeamID == some n

/-- The WHERE clause PositionID = :position_id. -/
def matchesPosition (pf : Option Int) (p : Player) : Bool :=
  match pf with
  | none => true
  | some n => p.PositionID == some n

/-- The rows fetched by the dynamically built
SELECT * FROM player [WHERE ...] statement: the full player table restricted
by the conjunction (AND) of whichever filter clauses were appended. -/
def selectPlayers (st : Store) (tf pf : Option Int) : List Player :=
  st.players.filter (fun p => matchesTeam tf p && matchesPosition pf p)

/-- The stats block of the report route (app.py 188-197): zeros when the
fetched row list is empty, otherwise the count and the two means rounded to
2 decimals. -/
def statsOf (ps : List Player) : ReportResult :=
  if ps.isEmpty then ⟨ps, 0, 0, 0⟩
  else
    ⟨ps, ps.length,
      round2 ((ps.map (fun p => (p.Age : Rat))).sum / (ps.length : Rat)),
      round2 ((ps.map Player.Height).sum / (ps.length : Rat))⟩

/-- report POST (app.py 166-197): parse both filter tokens, fetch the
matching rows with the prepared statement, compute the stats. -/
def report (st : Store) (teamTok posTok : Option String) :
    Except Err ReportResult :=
  match parseFilterToken teamTok with
  | .error e => .error e
  | .ok tf =>
    match parseFilterToken posTok with
    | .error e => .error e
    | .ok pf => .ok (statsOf (selectPlayers st tf pf))

/-! Concrete fixtures: the seeded state of the specification scenarios —
Team A with id 1, Positions Forward=1 and Midfielder=2, and the two players
(n1, 20, 70.0, team 1, pos 1) and (n2, 22, 68.0, team 1, pos 2). -/

/-- Store of the specification scenarios. -/
def scn : Store :=
  ⟨[⟨1, "A"⟩], [⟨1, "Forward"⟩, ⟨2, "Midfielder"⟩],
   [⟨1, "n1", 20, 70, some 1, some 1, 0⟩, ⟨2, "n2", 22, 68, some 1, some 2, 0⟩]⟩

/-- A full edit form resubmitting the current field values of player n1. -/
def scnForm : EditForm := ⟨some "n1", some "20", some "70.0", some "1", some "1"⟩

/-- Claim C1: an update request on an existing Player whose field changes
are well formed but whose version token differs from the stored version is
rejected with ConcurrencyConflict and the store is left unchanged.  (A
request with malformed fields is instead rejected with InvalidInput before
the version is consulted; that ordering is the subject of C4.) -/
theorem C1_stale_update_conflict (st : Store) (pid : Int) (v : Nat)
    (form : EditForm) (p : Player)
    (hp : st.players.find? (fun q => q.PlayerID == pid) = some p)
    (nm aS hS tS qS : String)
    (hn : form.name = some nm) (ha : form.age = some aS)
    (hh : form.height = some hS) (ht : form.team = some tS)
    (hq : form.position = some qS)
    (a : Int) (hpa : pyInt aS = some a)
    (r : Rat) (hph : pyFloat hS = some r)
    (t : Int) (hpt : pyInt tS = some t)
    (q : Int) (hpq : pyInt qS = some q)
    (hv : v ≠ p.Version) :
    edit_player st pid v form = (st, .error .ConcurrencyConflict) := by
  unfold edit_player
  simp only [hp, hn, ha, hh, ht, hq, hpa, hph, hpt, hpq]
  rw [if_neg (fun h => hv h.symm)]

/-- Witness for C1, the specification scenario: updating player 1 of the
seeded store with version token 0 succeeds and yields version 1; repeating
the identical call with token 0 against the updated store is rejected with
ConcurrencyConflict and leaves the updated store unchanged. -/
theorem C1_witness :
    (edit_player scn 1 0 scnForm).2 = .ok ⟨1, "n1", 20, 70, some 1, some 1, 1⟩ ∧
    edit_player (edit_player scn 1 0 scnForm).1 1 0 scnForm
      = ((edit_player scn 1 0 scnForm).1, .error .ConcurrencyConflict) := by
  constructor
  · with_unfolding_all rfl
  · exact C1_stale_update_conflict (edit_player scn 1 0 scnForm).1 1 0 scnForm
      ⟨1, "n1", 20, 70, some 1, some 1, 1⟩ (by with_unfolding_all rfl)
      "n1" "20" "70.0" "1" "1" rfl rfl rfl rfl rfl
      20 (by decide) 70 (by with_unfolding_all rfl) 1 (by decide) 1 (by decide)
      (by decide)

/-- Rows whose key differs from the updated one are preserved by the keyed
map-update issued on commit. -/
theorem mem_map_update_of_ne {l : List Player} {pid : Int} {p2 q : Player}
    (hq : q ∈ l) (hne : q.PlayerID ≠ pid) :
    q ∈ l.map (fun r => if r.PlayerID == pid then p2 else r) :=
  List.mem_map.mpr ⟨q, hq, by simp [hne]⟩

/-- Conversely, a row of the updated table whose key differs from the
updated one was already present. -/
theorem mem_of_mem_map_update {l : List Player} {pid : Int} {p2 q : Player}
    (hq : q ∈ l.map (fun r => if r.PlayerID == pid then p2 else r))
    (hp2 : p2.PlayerID = pid)
    (hne : q.PlayerID ≠ pid) : q ∈ l := by
  obtain ⟨r, hr, hrq⟩ := List.mem_map.mp hq
  by_cases h : r.PlayerID = pid
  · rw [if_pos (by simp [h])] at hrq
    subst hrq
    exact absurd hp2 hne
  · rw [if_neg (by simp [h])] at hrq
    subst hrq
    exact hr

/-- Claim C2: a Player row is created with version 0, and every successful
update increments exactly the edited row's version by exactly 1: the player
table keeps its size, every other Player row is carried over unchanged in
both directions, and the Team and Position tables are untouched. -/
theorem C2_version_increment :
    (∀ st nm a h tid qid st2 p,
       add_player st nm a h tid qid = (st2, .ok p) → p.Version = 0) ∧
    (∀ st pid v form st2 p2 p,
       st.players.find? (fun q => q.PlayerID == pid) = some p →
       edit_player st pid v form = (st2, .ok p2) →
       p2.Version = p.Version + 1 ∧
       st2.players.length = st.players.length ∧
       (∀ q, q ∈ st.players → q.PlayerID ≠ pid → q ∈ st2.players) ∧
       (∀ q, q ∈ st2.players → q.PlayerID ≠ pid → q ∈ st.players) ∧
       st2.teams = st.teams ∧ st2.positions = st.positions) := by
  constructor
  · intro st nm a h tid qid st2 p hc
    unfold add_player at hc
    split at hc
    · simp only [Prod.mk.injEq, Except.ok.injEq] at hc
      obtain ⟨-, hp⟩ := hc
      subst hp
      rfl
    · simp at hc
  · intro st pid v form st2 p2 p hfind hc
    have hpid : p.PlayerID = pid := by
      have h2 := List.find?_some hfind
      simpa using h2
    unfold edit_player at hc
    rw [hfind] at hc
    dsimp only at hc
    repeat' split at hc
    any_goals (apply absurd hc; simp; done)
    simp only [Prod.mk.injEq, Except.ok.injEq] at hc
    obtain ⟨hst, hp⟩ := hc
    subst hst
    subst hp
    refine ⟨rfl, by simp, ?_, ?_, rfl, rfl⟩
    · intro q hq hne
      exact mem_map_update_of_ne hq hne
    · intro q hq hne
      exact mem_of_mem_map_update hq hpid hne

/-- Witness for C2: creating player n3 yields version 0; the scenario's
first successful update of player 1 bumps the version from 0 to 1 and keeps
the untouched row n2 in the table. -/
theorem C2_witness :
    (⟨3, "n3", 30, 71, some 1, some 2, 0⟩ : Player).Version = 0 ∧
    (⟨1, "n1", 20, 70, some 1, some 1, 1⟩ : Player).Version
      = (⟨1, "n1", 20, 70, some 1, some 1, 0⟩ : Player).Version + 1 ∧
    (⟨2, "n2", 22, 68, some 1, some 2, 0⟩ : Player) ∈
      (edit_player scn 1 0 scnForm).1.players := by
  refine ⟨?_, ?_, ?_⟩
  · exact C2_version_increment.1 scn "n3" 30 71 1 2
      (add_player scn "n3" 30 71 1 2).1 ⟨3, "n3", 30, 71, some 1, some 2, 0⟩
      (by with_unfolding_all rfl)
  · exact (C2_version_increment.2 scn 1 0 scnForm (edit_player scn 1 0 scnForm).1
      ⟨1, "n1", 20, 70, some 1, some 1, 1⟩ ⟨1, "n1", 20, 70, some 1, some 1, 0⟩
      (by with_unfolding_all rfl) (by with_unfolding_all rfl)).1
  · exact (C2_version_increment.2 scn 1 0 scnForm (edit_player scn 1 0 scnForm).1
      ⟨1, "n1", 20, 70, some 1, some 1, 1⟩ ⟨1, "n1", 20, 70, some 1, some 1, 0⟩
      (by with_unfolding_all rfl) (by with_unfolding_all rfl)).2.2.1
      ⟨2, "n2", 22, 68, some 1, some 2, 0⟩ (by decide) (by decide)

/-- Counterexample to claim C3 as stated: the update operation does not
accept a proper subset of the field set.  Submitting only a new name for the
existing player 1 with the current version token is rejected with
InvalidInput (the route's bracket access on each of the five form keys
raises KeyError for the absent ones) and no field is changed. -/
theorem C3_counterexample :
    (⟨some "n1x", none, none, none, none⟩ : EditForm).age = none ∧
    edit_player scn 1 0 ⟨some "n1x", none, none, none, none⟩
      = (scn, .error .InvalidInput) :=
  ⟨rfl, by with_unfolding_all rfl⟩

/-- Claim C3 (amended): the update operation requires the full field set —
a request in which any of the five fields is absent fails with InvalidInput
and leaves the store unchanged; when all five fields are supplied and parse,
the matching-version update stores exactly the five supplied values. -/
theorem C3_update_requires_all_fields :
    (∀ st pid v form p,
       st.players.find? (fun q => q.PlayerID == pid) = some p →
       (form.name = none ∨ form.age = none ∨ form.height = none ∨
        form.team = none ∨ form.position = none) →
       edit_player st pid v form = (st, .error .InvalidInput)) ∧
    (∀ st pid form p nm aS hS tS qS a r t q,
       st.players.find? (fun q2 => q2.PlayerID == pid) = some p →
       form.name = some nm → form.age = some aS → form.height = some hS →
       form.team = some tS → form.position = some qS →
       pyInt aS = some a → pyFloat hS = some r → pyInt tS = some t →
       pyInt qS = some q →
       (edit_player st pid p.Version form).2 =
         .ok { p with Name := nm, Age := a, Height := r,
                      TeamID := some t, PositionID := some q,
                      Version := p.Version + 1 }) := by
  constructor
  · intro st pid v form p hfind hmiss
    unfold edit_player
    rw [hfind]
    obtain ⟨fn, fa, fh, ft, fq⟩ := form
    cases fn <;> cases fa <;> cases fh <;> cases ft <;> cases fq <;> simp_all
  · intro st pid form p nm aS hS tS qS a r t q hfind hn ha hh ht hq hpa hph hpt hpq
    unfold edit_player
    simp only [hfind, hn, ha, hh, ht, hq, hpa, hph, hpt, hpq]
    simp

/-- Witness for C3 (amended): omitting the age field fails with
InvalidInput; resubmitting all five current values of player 1 succeeds and
stores exactly them with the bumped version. -/
theorem C3_witness :
    edit_player scn 1 0 ⟨some "x", none, some "70.0", some "1", some "1"⟩
      = (scn, .error .InvalidInput) ∧
    (edit_player scn 1 0 scnForm).2 = .ok ⟨1, "n1", 20, 70, some 1, some 1, 1⟩ := by
  constructor
  · exact C3_update_requires_all_fields.1 scn 1 0
      ⟨some "x", none, some "70.0", some "1", some "1"⟩
      ⟨1, "n1", 20, 70, some 1, some 1, 0⟩ (by decide) (Or.inr (Or.inl rfl))
  · exact C3_update_requires_all_fields.2 scn 1 scnForm
      ⟨1, "n1", 20, 70, some 1, some 1, 0⟩ "n1" "20" "70.0" "1" "1"
      20 70 1 1 (by decide) rfl rfl rfl rfl rfl
      (by decide) (by with_unfolding_all rfl) (by decide) (by decide)

/-- Counterexample to claim C4 as stated: a supplied team id that
references no existing Team is not rejected — the update is applied and the
dangling reference is stored (SQLite does not enforce the declared foreign
keys, and the route performs no existence check). -/
theorem C4_counterexample :
    (999 : Int) ∉ teamIds scn ∧
    (edit_player scn 1 0 ⟨some "n1", some "20", some "70.0", some "999", some "1"⟩).2
      = .ok ⟨1, "n1", 20, 70, some 999, some 1, 1⟩ :=
  ⟨by decide, by with_unfolding_all rfl⟩

/-- Claim C4 (amended): an update request whose age is not a valid integer,
whose height is not a valid number, or whose team/position token is not a
valid integer fails with InvalidInput — an error distinct from
ConcurrencyConflict — before any persistence attempt (for every version
token, current or stale) and the store is untouched.  Supplied team and
position ids are, however, not checked against the existing Teams and
Positions: a numeric id referencing no existing entity is accepted. -/
theorem C4_invalid_field_rejected (st : Store) (pid : Int) (v : Nat)
    (form : EditForm) (p : Player)
    (hfind : st.players.find? (fun q2 => q2.PlayerID == pid) = some p)
    (nm aS hS tS qS : String)
    (hn : form.name = some nm) (ha : form.age = some aS)
    (hh : form.height = some hS) (ht : form.team = some tS)
    (hq : form.position = some qS)
    (hbad : pyInt aS = none ∨ pyFloat hS = none ∨ pyInt tS = none ∨
            pyInt qS = none) :
    edit_player st pid v form = (st, .error .InvalidInput) ∧
    Err.InvalidInput ≠ Err.ConcurrencyConflict := by
  refine ⟨?_, by decide⟩
  unfold edit_player
  simp only [hfind, hn, ha, hh, ht, hq]
  rcases e1 : pyInt aS with _ | a <;> rcases e2 : pyFloat hS with _ | r <;>
    rcases e3 : pyInt tS with _ | t <;> rcases e4 : pyInt qS with _ | q <;>
      simp_all

/-- Witness for C4 (amended): a non-numeric age token is rejected with
InvalidInput even though the version token is current, and the store is
unchanged. -/
theorem C4_witness :
    edit_player scn 1 0 ⟨some "n1", some "abc", some "70.0", some "1", some "1"⟩
      = (scn, .error .InvalidInput) ∧
    Err.InvalidInput ≠ Err.ConcurrencyConflict :=
  C4_invalid_field_rejected scn 1 0
    ⟨some "n1", some "abc", some "70.0", some "1", some "1"⟩
    ⟨1, "n1", 20, 70, some 1, some 1, 0⟩ (by decide)
    "n1" "abc" "70.0" "1" "1" rfl rfl rfl rfl rfl (Or.inl (by decide))

/-- A provided, non-empty, non-sentinel token that parses binds a filter
parameter. -/
theorem parseFilterToken_num (s : String) (n : Int) (h1 : s ≠ "")
    (h2 : s ≠ "all") (hn : pyInt s = some n) :
    parseFilterToken (some s) = .ok (some n) := by
  unfold parseFilterToken
  dsimp only
  rw [if_neg (by simp [h1, h2]), hn]

/-- A provided, non-empty, non-sentinel token that does not parse raises. -/
theorem parseFilterToken_bad (s : String) (h1 : s ≠ "") (h2 : s ≠ "all")
    (hn : pyInt s = none) :
    parseFilterToken (some s) = .error .InvalidInput := by
  unfold parseFilterToken
  dsimp only
  rw [if_neg (by simp [h1, h2]), hn]

/-- With both tokens parsed, the report is the stats of the fetched rows. -/
theorem report_eq (st : Store) (tt pt : Option String) (tf pf : Option Int)
    (h1 : parseFilterToken tt = .ok tf) (h2 : parseFilterToken pt = .ok pf) :
    report st tt pt = .ok (statsOf (selectPlayers st tf pf)) := by
  unfold report
  rw [h1]
  dsimp only
  rw [h2]

/-- The rendered player list of the stats block is the fetched row list. -/
theorem statsOf_players (ps : List Player) : (statsOf ps).players = ps := by
  unfold statsOf
  split <;> rfl

/-- Filtering by a conjunction of Bool predicates filters successively. -/
theorem filter_and_eq (l : List Player) (f g : Player → Bool) :
    l.filter (fun p => f p && g p) = (l.filter f).filter g := by
  induction l with
  | nil => rfl
  | cons a l ih =>
    by_cases hf : f a <;> by_cases hg : g a <;>
      simp [List.filter_cons, hf, hg, ih]

/-- Claim C5: the report result set equals the full Player set, restricted
to the given team id when the team filter is specific, and further
restricted to the given position id when the position filter is specific
(conjunctive AND semantics); an absent filter value matches all. -/
theorem C5_conjunctive_filters :
    (∀ st r, report st none none = .ok r → r.players = st.players) ∧
    (∀ st tS nT r, tS ≠ "" → tS ≠ "all" → pyInt tS = some nT →
       report st (some tS) none = .ok r →
       r.players = st.players.filter (fun p => p.TeamID == some nT)) ∧
    (∀ st pS nP r, pS ≠ "" → pS ≠ "all" → pyInt pS = some nP →
       report st none (some pS) = .ok r →
       r.players = st.players.filter (fun p => p.PositionID == some nP)) ∧
    (∀ st tS pS nT nP r, tS ≠ "" → tS ≠ "all" → pyInt tS = some nT →
       pS ≠ "" → pS ≠ "all" → pyInt pS = some nP →
       report st (some tS) (some pS) = .ok r →
       r.players = (st.players.filter (fun p => p.TeamID == some nT)).filter
         (fun p => p.PositionID == some nP)) := by
  refine ⟨?_, ?_, ?_, ?_⟩
  · intro st r hrep
    rw [report_eq st none none none none rfl rfl] at hrep
    injection hrep with hr
    subst hr
    rw [statsOf_players]
    unfold selectPlayers
    simp [matchesTeam, matchesPosition]
  · intro st tS nT r h1 h2 h3 hrep
    rw [report_eq st (some tS) none (some nT) none
        (parseFilterToken_num tS nT h1 h2 h3) rfl] at hrep
    injection hrep with hr
    subst hr
    rw [statsOf_players]
    unfold selectPlayers
    simp [matchesTeam, matchesPosition]
  · intro st pS nP r h1 h2 h3 hrep
    rw [report_eq st none (some pS) none (some nP) rfl
        (parseFilterToken_num pS nP h1 h2 h3)] at hrep
    injection hrep with hr
    subst hr
    rw [statsOf_players]
    unfold selectPlayers
    simp [matchesTeam, matchesPosition]
  · intro st tS pS nT nP r h1 h2 h3 h4 h5 h6 hrep
    rw [report_eq st (some tS) (some pS) (some nT) (some nP)
        (parseFilterToken_num tS nT h1 h2 h3)
        (parseFilterToken_num pS nP h4 h5 h6)] at hrep
    injection hrep with hr
    subst hr
    rw [statsOf_players]
    exact filter_and_eq st.players (fun p => p.TeamID == some nT)
      (fun p => p.PositionID == some nP)

/-- Witness for C5: the scenario store reported with no filters yields all
rows; reported with team=1 and position=2 it yields exactly the successive
restriction, namely row n2. -/
theorem C5_witness :
    (⟨scn.players, 2, 21, 69⟩ : ReportResult).players = scn.players ∧
    (⟨[⟨2, "n2", 22, 68, some 1, some 2, 0⟩], 1, 22, 68⟩ : ReportResult).players
      = (scn.players.filter (fun p => p.TeamID == some 1)).filter
          (fun p => p.PositionID == some 2) := by
  constructor
  · exact C5_conjunctive_filters.1 scn ⟨scn.players, 2, 21, 69⟩
      (by with_unfolding_all rfl)
  · exact C5_conjunctive_filters.2.2.2 scn "1" "2" 1 2
      ⟨[⟨2, "n2", 22, 68, some 1, some 2, 0⟩], 1, 22, 68⟩
      (by decide) (by decide) (by decide) (by decide) (by decide) (by decide)
      (by with_unfolding_all rfl)

/-- Claim C6: in every report result, total equals the count of matching
Players, the averages equal the arithmetic means of the matching ages and
heights rounded to 2 decimal places when some Player matches, and all three
statistics are 0 when none does. -/
theorem C6_report_stats (st : Store) (tt pt : Option String) (r : ReportResult)
    (h : report st tt pt = .ok r) :
    r.total = r.players.length ∧
    (r.players ≠ [] →
       r.avg_age = round2 ((r.players.map (fun p => (p.Age : Rat))).sum /
         (r.players.length : Rat)) ∧
       r.avg_height = round2 ((r.players.map Player.Height).sum /
         (r.players.length : Rat))) ∧
    (r.players = [] → r.total = 0 ∧ r.avg_age = 0 ∧ r.avg_height = 0) := by
  unfold report at h
  cases h1 : parseFilterToken tt with
  | error e => rw [h1] at h; exact absurd h (by simp)
  | ok tf =>
    rw [h1] at h
    dsimp only at h
    cases h2 : parseFilterToken pt with
    | error e => rw [h2] at h; exact absurd h (by simp)
    | ok pf =>
      rw [h2] at h
      dsimp only at h
      injection h with hr
      subst hr
      unfold statsOf
      split
      · next he =>
        have hnil : selectPlayers st tf pf = [] := by
          simpa [List.isEmpty_iff] using he
        exact ⟨by simp [hnil], fun hne => absurd hnil hne, fun _ => ⟨rfl, rfl, rfl⟩⟩
      · next he =>
        exact ⟨rfl, fun hne => ⟨rfl, rfl⟩,
          fun hnil => absurd (List.isEmpty_iff.mpr hnil) he⟩

/-- Witness for C6: the scenario report (team 1, all positions) yields
total 2 and averages 21.0 and 69.0; a report matching no rows yields the
three zero statistics. -/
theorem C6_witness :
    report scn (some "1") (some "all") = .ok ⟨scn.players, 2, 21, 69⟩ ∧
    (⟨scn.players, 2, 21, 69⟩ : ReportResult).total
      = (⟨scn.players, 2, 21, 69⟩ : ReportResult).players.length ∧
    ((⟨[], 0, 0, 0⟩ : ReportResult).total = 0 ∧
     (⟨[], 0, 0, 0⟩ : ReportResult).avg_age = 0 ∧
     (⟨[], 0, 0, 0⟩ : ReportResult).avg_height = 0) :=
  ⟨by with_unfolding_all rfl,
   (C6_report_stats scn (some "1") (some "all") ⟨scn.players, 2, 21, 69⟩
     (by with_unfolding_all rfl)).1,
   (C6_report_stats scn (some "9") none ⟨[], 0, 0, 0⟩
     (by with_unfolding_all rfl)).2.2 rfl⟩

/-- Counterexample to claim C7 as stated: the empty string is a filter
token that is neither numeric nor the sentinel all, yet the report does not
reject it with InvalidInput — the route's truthiness test treats it like an
absent value and matches all rows. -/
theorem C7_counterexample :
    pyInt "" = none ∧ ("" : String) ≠ "all" ∧
    report scn (some "") none = .ok ⟨scn.players, 2, 21, 69⟩ :=
  ⟨by decide, by decide, by with_unfolding_all rfl⟩

/-- The empty string in the team slot is falsy, so the route builds the
same query as with the key absent. -/
theorem parseFilterToken_empty : parseFilterToken (some "") = .ok none := by
  unfold parseFilterToken
  dsimp only
  rw [if_pos (Or.inl rfl)]

/-- Claim C7 (amended): an empty filter token in either slot is treated
exactly like an absent one (match-all); a provided non-empty filter token
that is neither numeric nor the sentinel all is rejected with InvalidInput,
whichever slot it occupies; and a numeric filter value that corresponds to
no existing Team id (respectively Position id) — under the
referential-integrity invariant that every set Player reference names an
existing entity — yields the empty result set with zero statistics rather
than an error. -/
theorem C7_filter_token_validation :
    (∀ st posTok, report st (some "") posTok = report st none posTok) ∧
    (∀ st teamTok, report st teamTok (some "") = report st teamTok none) ∧
    (∀ st s posTok, s ≠ "" → s ≠ "all" → pyInt s = none →
       report st (some s) posTok = .error .InvalidInput) ∧
    (∀ st teamTok tf s, parseFilterToken teamTok = .ok tf → s ≠ "" →
       s ≠ "all" → pyInt s = none →
       report st teamTok (some s) = .error .InvalidInput) ∧
    (∀ st s n, s ≠ "" → s ≠ "all" → pyInt s = some n →
       (∀ p ∈ st.players,
          p.TeamID = none ∨ ∃ t ∈ st.teams, p.TeamID = some t.TeamID) →
       (∀ t ∈ st.teams, t.TeamID ≠ n) →
       report st (some s) none = .ok ⟨[], 0, 0, 0⟩) ∧
    (∀ st teamTok tf s n, parseFilterToken teamTok = .ok tf → s ≠ "" →
       s ≠ "all" → pyInt s = some n →
       (∀ p ∈ st.players,
          p.PositionID = none ∨ ∃ q ∈ st.positions, p.PositionID = some q.PositionID) →
       (∀ q ∈ st.positions, q.PositionID ≠ n) →
       report st teamTok (some s) = .ok ⟨[], 0, 0, 0⟩) := by
  refine ⟨?_, ?_, ?_, ?_, ?_, ?_⟩
  · intro st posTok
    unfold report
    rw [parseFilterToken_empty]
    rfl
  · intro st teamTok
    unfold report
    cases h : parseFilterToken teamTok with
    | error e => rfl
    | ok tf =>
      dsimp only
      rw [parseFilterToken_empty]
      rfl
  · intro st s posTok h1 h2 h3
    unfold report
    rw [parseFilterToken_bad s h1 h2 h3]
  · intro st teamTok tf s hok h1 h2 h3
    unfold report
    rw [hok]
    dsimp only
    rw [parseFilterToken_bad s h1 h2 h3]
  · intro st s n h1 h2 h3 hInt hn
    have hnil : selectPlayers st (some n) none = [] := by
      unfold selectPlayers
      refine List.filter_eq_nil_iff.mpr ?_
      intro p hp
      rcases hInt p hp with he | ⟨t, ht, hte⟩
      · simp [matchesTeam, matchesPosition, he]
      · simp [matchesTeam, matchesPosition, hte, hn t ht]
    rw [report_eq st (some s) none (some n) none
        (parseFilterToken_num s n h1 h2 h3) rfl, hnil]
    rfl
  · intro st teamTok tf s n hok h1 h2 h3 hInt hn
    have hnil : selectPlayers st tf (some n) = [] := by
      unfold selectPlayers
      refine List.filter_eq_nil_iff.mpr ?_
      intro p hp
      rcases hInt p hp with he | ⟨q, hq, hqe⟩
      · simp [matchesPosition, he]
      · simp [matchesPosition, hqe, hn q hq]
    rw [report_eq st teamTok (some s) tf (some n) hok
        (parseFilterToken_num s n h1 h2 h3), hnil]
    rfl

/-- Witness for C7 (amended): an empty token in either slot reports like
an absent one; a garbage token in either slot is rejected; filtering by the
nonexistent team id 9 or position id 9 yields the empty zero report. -/
theorem C7_witness :
    report scn (some "") (some "2") = report scn none (some "2") ∧
    report scn (some "1") (some "") = report scn (some "1") none ∧
    report scn (some "zz") none = .error .InvalidInput ∧
    report scn none (some "zz") = .error .InvalidInput ∧
    report scn (some "9") none = .ok ⟨[], 0, 0, 0⟩ ∧
    report scn none (some "9") = .ok ⟨[], 0, 0, 0⟩ :=
  ⟨C7_filter_token_validation.1 scn (some "2"),
   C7_filter_token_validation.2.1 scn (some "1"),
   C7_filter_token_validation.2.2.1 scn "zz" none (by decide) (by decide)
     (by decide),
   C7_filter_token_validation.2.2.2.1 scn none none "zz" rfl (by decide)
     (by decide) (by decide),
   C7_filter_token_validation.2.2.2.2.1 scn "9" 9 (by decide) (by decide)
     (by decide) (by decide) (by decide),
   C7_filter_token_validation.2.2.2.2.2 scn none none "9" 9 rfl (by decide)
     (by decide) (by decide) (by decide) (by decide)⟩

/-- Claim C8: deleting a Team removes every Player whose team reference
equals that id together with the Team row itself, preserves every other
Player (and Team, and the Position table), and deleting a nonexistent Team
id — one that no Team row carries and, by the referential-integrity
invariant, no Player references — is a no-op rather than an error. -/
theorem C8_delete_team_cascade :
    (∀ st tid,
       (∀ p, p ∈ (delete_team st tid).players → p.TeamID ≠ some tid) ∧
       (∀ p, p ∈ st.players → p.TeamID ≠ some tid →
          p ∈ (delete_team st tid).players) ∧
       (∀ p, p ∈ (delete_team st tid).players → p ∈ st.players) ∧
       tid ∉ teamIds (delete_team st tid) ∧
       (∀ t, t ∈ st.teams → t.TeamID ≠ tid → t ∈ (delete_team st tid).teams) ∧
       (delete_team st tid).positions = st.positions) ∧
    (∀ st tid, (∀ t ∈ st.teams, t.TeamID ≠ tid) →
       (∀ p ∈ st.players, p.TeamID ≠ some tid) →
       delete_team st tid = st) := by
  constructor
  · intro st tid
    refine ⟨?_, ?_, ?_, ?_, ?_, rfl⟩
    · intro p hp
      have h := (List.mem_filter.mp hp).2
      simpa using h
    · intro p hp hne
      exact List.mem_filter.mpr ⟨hp, by simpa using hne⟩
    · intro p hp
      exact (List.mem_filter.mp hp).1
    · intro hmem
      obtain ⟨t, ht, hte⟩ := List.mem_map.mp hmem
      have h := (List.mem_filter.mp ht).2
      simp [hte] at h
    · intro t ht hne
      exact List.mem_filter.mpr ⟨ht, by simpa using hne⟩
  · intro st tid hteams hplayers
    have h1 : st.players.filter (fun p => !(p.TeamID == some tid)) = st.players :=
      List.filter_eq_self.mpr (fun p hp => by simpa using hplayers p hp)
    have h2 : st.teams.filter (fun t => !(t.TeamID == tid)) = st.teams :=
      List.filter_eq_self.mpr (fun t ht => by simpa using hteams t ht)
    unfold delete_team
    rw [h1, h2]

/-- Witness for C8: deleting the nonexistent team id 7 from the seeded
store is a no-op. -/
theorem C8_witness : delete_team scn 7 = scn :=
  C8_delete_team_cascade.2 scn 7 (by decide) (by decide)

/-- Claim C9: creating a Team whose name equals an existing Team's name
fails with ConstraintViolation and the Team table gains no row (the whole
store is returned unchanged). -/
theorem C9_duplicate_team_name (st : Store) (name : String) (t : Team)
    (ht : t ∈ st.teams) (hname : t.TeamName = name) :
    add_team st name = (st, .error .ConstraintViolation) := by
  unfold add_team
  rw [if_pos (List.any_eq_true.mpr ⟨t, ht, by simp [hname]⟩)]

/-- Witness for C9: duplicating the seeded team name A is rejected and the
store is unchanged. -/
theorem C9_witness : add_team scn "A" = (scn, .error .ConstraintViolation) :=
  C9_duplicate_team_name scn "A" ⟨1, "A"⟩ (by decide) rfl

/-- Claim C10: every Player created through the create-player operation
carries non-null team and position references, and they are drawn from the
Teams and Positions existing at creation time, although the schema declares
both foreign-key columns nullable. -/
theorem C10_created_player_references (st : Store) (nm : String) (a : Int)
    (h : Rat) (tid qid : Int) (st2 : Store) (p : Player)
    (hc : add_player st nm a h tid qid = (st2, .ok p)) :
    p.TeamID = some tid ∧ tid ∈ teamIds st ∧
    p.PositionID = some qid ∧ qid ∈ posIds st ∧ p ∈ st2.players := by
  unfold add_player at hc
  split at hc
  case isTrue hcond =>
    simp only [Prod.mk.injEq, Except.ok.injEq] at hc
    obtain ⟨hst, hp⟩ := hc
    subst hst
    subst hp
    rw [Bool.and_eq_true] at hcond
    obtain ⟨hteam, hpos⟩ := hcond
    obtain ⟨t, htm, hteq⟩ := List.any_eq_true.mp hteam
    obtain ⟨q, hqm, hqeq⟩ := List.any_eq_true.mp hpos
    refine ⟨rfl, ?_, rfl, ?_, ?_⟩
    · exact List.mem_map.mpr ⟨t, htm, eq_of_beq hteq⟩
    · exact List.mem_map.mpr ⟨q, hqm, eq_of_beq hqeq⟩
    · simp
  case isFalse hcond => simp at hc

/-- Witness for C10: creating player n3 on the seeded store yields a row
referencing team 1 and position 2, both existing. -/
theorem C10_witness :
    (⟨3, "n3", 30, 71, some 1, some 2, 0⟩ : Player).TeamID = some 1 ∧
    (1 : Int) ∈ teamIds scn ∧
    (⟨3, "n3", 30, 71, some 1, some 2, 0⟩ : Player).PositionID = some 2 ∧
    (2 : Int) ∈ posIds scn ∧
    (⟨3, "n3", 30, 71, some 1, some 2, 0⟩ : Player) ∈
      (add_player scn "n3" 30 71 1 2).1.players :=
  C10_created_player_references scn "n3" 30 71 1 2
    (add_player scn "n3" 30 71 1 2).1 ⟨3, "n3", 30, 71, some 1, some 2, 0⟩
    (by with_unfolding_all rfl)

end Roster
